import Mathlib

/-!
Shallow embedding of src/dbapi/dbapi.py, a query layer over a MySQL store
of IPv4/IPv6 addresses. The external collaborators are modelled at their
interfaces: netaddr.IPAddress is modelled by its decoded state (version and
numeric value), the MySQL connection is modelled by a state record carrying
the database contents, the number of open cursors and the trace of executed
statements, and each SQL statement built by string interpolation is modelled
by a structured value carrying exactly the interpolated parameters, together
with an interpretation function giving the MySQL semantics of the resulting
statement. Logging is an external no-op effect and is omitted.
-/

namespace Dbapi

/-- One step of reading a binary numeral most-significant-digit first. -/
def bitVal (a : Nat) (c : Char) : Nat := 2 * a + (if c = '1' then 1 else 0)

/-- Numeric value MySQL assigns to a 0b binary literal token: the digits
after the two-character prefix read in base 2. -/
def binToNat (s : String) : Nat := (s.data.drop 2).foldl bitVal 0

/-- Digits of n in base 2, most significant first, prepended to acc.
The first argument is structural fuel; any fuel at least n is enough. -/
def binDigitsCore : Nat → Nat → List Char → List Char
  | 0, _, acc => acc
  | fuel + 1, n, acc =>
    if n = 0 then acc
    else binDigitsCore fuel (n / 2) ((if n % 2 = 1 then '1' else '0') :: acc)

/-- The Python built-in bin applied to a non-negative integer: the string
0b followed by the binary digits (0b0 for zero). -/
def pyBin (n : Nat) : String :=
  String.mk ('0' :: 'b' :: (if n = 0 then ['0'] else binDigitsCore n n []))

/-- A Python value interpolated into an SQL statement: either an int
(IPv4 value) or a str (the bin rendering of an IPv6 value). -/
inductive PyVal where
  | int : Nat → PyVal
  | str : String → PyVal
deriving DecidableEq

/-- The numeric value MySQL gives the interpolated token: an int literal is
itself, a 0b string token is a binary literal. -/
def PyVal.asNum : PyVal → Nat
  | .int n => n
  | .str s => binToNat s

/-- Decoded state of a netaddr.IPAddress object (external collaborator):
its version and its numeric value. -/
structure IPAddr where
  version : Nat
  value : Nat
deriving DecidableEq

/-- The address literal was a syntactically valid IPv4 or IPv6 address, so
netaddr decoded it to version 4 with a 32-bit value or version 6 with a
128-bit value. -/
def ValidIP (ip : IPAddr) : Prop :=
  (ip.version = 4 ∧ ip.value < 2 ^ 32) ∨ (ip.version = 6 ∧ ip.value < 2 ^ 128)

instance (ip : IPAddr) : Decidable (ValidIP ip) := by
  unfold ValidIP; infer_instance

/-- Embedding of get_ip_data: value is the integer if the version is 4 and
the bin rendering otherwise; returned together with the version. -/
def get_ip_data (ip : IPAddr) : PyVal × Nat :=
  (if ip.version = 4 then PyVal.int ip.value else PyVal.str (pyBin ip.value), ip.version)

/-- A row of ipv4_addresses or ipv6_addresses: the columns the queries of
this module interpolate or filter on (id, address, date_added); further
persisted attributes are opaque to the query layer. -/
structure Row where
  id : Nat
  address : Nat
  dateAdded : Nat
deriving DecidableEq

/-- A row of the sources table. -/
structure SourceRow where
  id : Nat
  sourceName : String
  urlDateModified : Nat
deriving DecidableEq

/-- A row of source_to_addresses for one version: the version-specific
address foreign key and the source foreign key. -/
structure LinkRow where
  addrId : Nat
  sourceId : Nat
deriving DecidableEq

/-- Contents of the relational store assumed by the module: the two
version-partitioned address tables, sources, the per-version link rows and
the per-version whitelist and blacklist foreign-key columns. -/
structure Database where
  ipv4 : List Row
  ipv6 : List Row
  sources : List SourceRow
  linksV4 : List LinkRow
  linksV6 : List LinkRow
  whitelistV4 : List Nat
  whitelistV6 : List Nat
  blacklistV4 : List Nat
  blacklistV6 : List Nat
deriving DecidableEq

/-- A built SQL statement, carrying exactly the parameters the source
interpolates into the corresponding string template. -/
inductive Stmt where
  | bySource : Nat → String → Option (Nat × Nat) → Stmt
  | byRange : Nat → PyVal → PyVal → Option (Nat × Nat) → Stmt
  | countList : String → Nat → PyVal → Stmt
  | byDateAdded : Nat → Nat → Nat → Option (Nat × Nat) → Stmt
  | sourcesModified : Nat → Nat → Option (Nat × Nat) → Stmt
  | countAddr : Nat → PyVal → Stmt
deriving DecidableEq

/-- The MySQLdb connection as seen by this module: the datastore contents,
the number of cursors currently open on it, and the trace of statements
executed so far. -/
structure Conn where
  db : Database
  openCursors : Nat
  executed : List Stmt
deriving DecidableEq

/-- connection.cursor(): acquire a cursor. -/
def openCur (c : Conn) : Conn := { c with openCursors := c.openCursors + 1 }

/-- cursor.close(): release a cursor. -/
def closeCur (c : Conn) : Conn := { c with openCursors := c.openCursors - 1 }

/-- cursor.execute(sql): record the statement in the trace. -/
def exec (c : Conn) (s : Stmt) : Conn := { c with executed := c.executed ++ [s] }

/-- MySQL LIMIT offset, count: skip offset rows, return at most count. -/
def applyLimit (limit : Option (Nat × Nat)) (rows : List α) : List α :=
  match limit with
  | none => rows
  | some (off, cnt) => (rows.drop off).take cnt

/-- The address table for a version tag (4 gives ipv4_addresses, otherwise
ipv6_addresses, matching the string formatting in the source). -/
def tableFor (db : Database) (ver : Nat) : List Row :=
  if ver = 4 then db.ipv4 else db.ipv6

/-- The source_to_addresses rows for a version tag. -/
def linksFor (db : Database) (ver : Nat) : List LinkRow :=
  if ver = 4 then db.linksV4 else db.linksV6

/-- The foreign-key column of the whitelist or blacklist relation for a
version tag, selected by the interpolated relation name. -/
def listIds (db : Database) (listName : String) (ver : Nat) : List Nat :=
  if listName = "whitelist" then (if ver = 4 then db.whitelistV4 else db.whitelistV6)
  else (if ver = 4 then db.blacklistV4 else db.blacklistV6)

/-- Rows whose id appears in the version link relation joined to sources
filtered by exact source name, then LIMIT. -/
def runBySource (db : Database) (ver : Nat) (name : String) (limit : Option (Nat × Nat)) :
    List Row :=
  applyLimit limit ((tableFor db ver).filter (fun r =>
    (linksFor db ver).any (fun l =>
      l.addrId == r.id && db.sources.any (fun s =>
        s.id == l.sourceId && s.sourceName == name))))

/-- Rows whose address is BETWEEN the two interpolated values (inclusive,
in the order given), then LIMIT. -/
def runByRange (db : Database) (ver : Nat) (s e : PyVal) (limit : Option (Nat × Nat)) :
    List Row :=
  applyLimit limit ((tableFor db ver).filter (fun r =>
    decide (s.asNum ≤ r.address ∧ r.address ≤ e.asNum)))

/-- count(*) of list rows whose version foreign key equals the id selected
by the scalar subquery on the address table. A NULL subquery result (no
matching address row) matches nothing; the store is assumed to hold at most
one address row per value, so the first match stands for the single one. -/
def runCountList (db : Database) (listName : String) (ver : Nat) (v : PyVal) : Nat :=
  match ((tableFor db ver).filter (fun r => r.address == v.asNum)).head? with
  | none => 0
  | some r => ((listIds db listName ver).filter (fun i => i == r.id)).length

/-- count(id) of address rows with the interpolated value. -/
def runCountAddr (db : Database) (ver : Nat) (v : PyVal) : Nat :=
  ((tableFor db ver).filter (fun r => r.address == v.asNum)).length

/-- Rows whose date_added is BETWEEN the two interpolated dates, then
LIMIT. -/
def runByDate (db : Database) (ver : Nat) (sd ed : Nat) (limit : Option (Nat × Nat)) :
    List Row :=
  applyLimit limit ((tableFor db ver).filter (fun r =>
    decide (sd ≤ r.dateAdded ∧ r.dateAdded ≤ ed)))

/-- Source rows whose url_date_modified is BETWEEN the two interpolated
dates, then LIMIT. -/
def runSourcesModified (db : Database) (sd ed : Nat) (limit : Option (Nat × Nat)) :
    List SourceRow :=
  applyLimit limit (db.sources.filter (fun s =>
    decide (sd ≤ s.urlDateModified ∧ s.urlDateModified ≤ ed)))

/-- A datetime.datetime value: its date part and its time within the day,
ordered lexicographically. -/
structure Datetime where
  day : Nat
  secs : Nat
deriving DecidableEq

/-- Python comparison a < b on datetime values. -/
def dtLt (a b : Datetime) : Bool :=
  Nat.blt a.day b.day || (a.day == b.day && Nat.blt a.secs b.secs)

/-- The exceptions the module raises, by the spec taxonomy: raise sites at
the version check of get_ip_from_range, the date check of
get_ips_added_in_range and the equal-nonzero-counts branch of
find_ip_list_type. -/
inductive Err where
  | versionMismatch
  | invalidRange
  | integrityViolation
deriving DecidableEq

instance {ε α : Type} [DecidableEq ε] [DecidableEq α] : DecidableEq (Except ε α) :=
  fun a b =>
    match a, b with
    | .ok x, .ok y =>
      if h : x = y then isTrue (by rw [h]) else isFalse (by intro he; injection he; contradiction)
    | .error x, .error y =>
      if h : x = y then isTrue (by rw [h]) else isFalse (by intro he; injection he; contradiction)
    | .ok _, .error _ => isFalse (by intro he; injection he)
    | .error _, .ok _ => isFalse (by intro he; injection he)

/-- Embedding of get_ip_with_source_name: open a cursor, execute the v4
statement and fetch, execute the v6 statement and fetch, concatenate,
close the cursor, return. -/
def get_ip_with_source_name (c : Conn) (sourcename : String)
    (limit : Option (Nat × Nat)) : List Row × Conn :=
  let c1 := openCur c
  let c2 := exec c1 (Stmt.bySource 4 sourcename limit)
  let resultV4 := runBySource c2.db 4 sourcename limit
  let c3 := exec c2 (Stmt.bySource 6 sourcename limit)
  let resultV6 := runBySource c3.db 6 sourcename limit
  let c4 := closeCur c3
  (resultV4 ++ resultV6, c4)

/-- Embedding of get_ip_from_range: open a cursor, decode both endpoints,
raise on version mismatch (cursor left open, nothing executed), otherwise
execute the single range statement with start and end in the order given,
close the cursor, return. -/
def get_ip_from_range (c : Conn) (start endAddr : IPAddr)
    (limit : Option (Nat × Nat)) : Except Err (List Row) × Conn :=
  let c1 := openCur c
  let startValue := (get_ip_data start).1
  let startVersion := (get_ip_data start).2
  let endValue := (get_ip_data endAddr).1
  let endVersion := (get_ip_data endAddr).2
  if startVersion ≠ endVersion then
    (Except.error Err.versionMismatch, c1)
  else
    let c2 := exec c1 (Stmt.byRange startVersion startValue endValue limit)
    let result := runByRange c2.db startVersion startValue endValue limit
    (Except.ok result, closeCur c2)

/-- Embedding of find_ip_list_type: open a cursor, run the whitelist count
then the blacklist count; equal counts raise (nonzero) or return None
(zero), both leaving the cursor open since cursor.close() sits after that
branch; differing counts close the cursor and return whitelist when its
count is nonzero, otherwise blacklist. -/
def find_ip_list_type (c : Conn) (ip : IPAddr) : Except Err (Option String) × Conn :=
  let c1 := openCur c
  let ipValue := (get_ip_data ip).1
  let ipVersion := (get_ip_data ip).2
  let c2 := exec c1 (Stmt.countList "whitelist" ipVersion ipValue)
  let whitelistCount := runCountList c2.db "whitelist" ipVersion ipValue
  let c3 := exec c2 (Stmt.countList "blacklist" ipVersion ipValue)
  let blacklistCount := runCountList c3.db "blacklist" ipVersion ipValue
  if whitelistCount = blacklistCount then
    if whitelistCount > 0 then (Except.error Err.integrityViolation, c3)
    else (Except.ok none, c3)
  else
    (Except.ok (some (if whitelistCount > 0 then "whitelist" else "blacklist")),
      closeCur c3)

/-- Embedding of get_ips_added_in_range: raise before touching the
connection when startdate exceeds enddate, otherwise open a cursor, execute
the v4 then the v6 date statement, concatenate, close, return. -/
def get_ips_added_in_range (c : Conn) (startdate enddate : Datetime)
    (limit : Option (Nat × Nat)) : Except Err (List Row) × Conn :=
  if dtLt enddate startdate then
    (Except.error Err.invalidRange, c)
  else
    let c1 := openCur c
    let c2 := exec c1 (Stmt.byDateAdded 4 startdate.day enddate.day limit)
    let resultV4 := runByDate c2.db 4 startdate.day enddate.day limit
    let c3 := exec c2 (Stmt.byDateAdded 6 startdate.day enddate.day limit)
    let resultV6 := runByDate c3.db 6 startdate.day enddate.day limit
    (Except.ok (resultV4 ++ resultV6), closeCur c3)

/-- Embedding of get_sources_modified_in_range: no date validation; open a
cursor, execute the single statement with the dates as given, close,
return. -/
def get_sources_modified_in_range (c : Conn) (startdate enddate : Datetime)
    (limit : Option (Nat × Nat)) : List SourceRow × Conn :=
  let c1 := openCur c
  let c2 := exec c1 (Stmt.sourcesModified startdate.day enddate.day limit)
  let result := runSourcesModified c2.db startdate.day enddate.day limit
  (result, closeCur c2)

/-- Embedding of check_if_ip_in_database: decode, open a cursor, run the
count statement, close, return the Python truthiness of the count. -/
def check_if_ip_in_database (c : Conn) (ip : IPAddr) : Bool × Conn :=
  let ipValue := (get_ip_data ip).1
  let ipVersion := (get_ip_data ip).2
  let c1 := openCur c
  let c2 := exec c1 (Stmt.countAddr ipVersion ipValue)
  let result := runCountAddr c2.db ipVersion ipValue
  let c3 := closeCur c2
  (if result = 0 then false else true, c3)

/-- A datastore with no rows at all. -/
def emptyDb : Database := ⟨[], [], [], [], [], [], [], [], []⟩

theorem exec_db (c : Conn) (s : Stmt) : (exec c s).db = c.db := rfl

theorem openCur_db (c : Conn) : (openCur c).db = c.db := rfl

theorem openCur_executed (c : Conn) : (openCur c).executed = c.executed := rfl

theorem binDigitsCore_foldl (fuel : Nat) :
    ∀ (n : Nat) (acc : List Char), n ≤ fuel →
      (binDigitsCore fuel n acc).foldl bitVal 0 = acc.foldl bitVal n := by
  induction fuel with
  | zero =>
    intro n acc h
    have hn : n = 0 := Nat.le_zero.mp h
    subst hn
    rfl
  | succ fuel ih =>
    intro n acc h
    by_cases hn : n = 0
    · subst hn
      simp [binDigitsCore]
    · rw [binDigitsCore, if_neg hn]
      rw [ih (n / 2) _ (by omega)]
      show acc.foldl bitVal (bitVal (n / 2) _) = acc.foldl bitVal n
      congr 1
      by_cases hm : n % 2 = 1 <;> simp [bitVal, hm] <;> omega

theorem binToNat_pyBin (n : Nat) : binToNat (pyBin n) = n := by
  by_cases hn : n = 0
  · subst hn
    rfl
  · show (('0' :: 'b' :: _ : List Char).drop 2).foldl bitVal 0 = n
    rw [if_neg hn]
    exact binDigitsCore_foldl n n [] (Nat.le_refl n)

theorem asNum_get_ip_data (ip : IPAddr) : (get_ip_data ip).1.asNum = ip.value := by
  unfold get_ip_data
  by_cases h : ip.version = 4 <;> simp [h, PyVal.asNum, binToNat_pyBin]

theorem version_get_ip_data (ip : IPAddr) : (get_ip_data ip).2 = ip.version := rfl

theorem applyLimit_length_le (off cnt : Nat) (l : List α) :
    (applyLimit (some (off, cnt)) l).length ≤ cnt := by
  simp [applyLimit]

theorem applyLimit_nil (limit : Option (Nat × Nat)) :
    applyLimit limit ([] : List α) = [] := by
  cases limit with
  | none => rfl
  | some p => cases p; simp [applyLimit]

/-- A store holding one v4 address row with value 5, one whitelist entry
for it and two blacklist entries for it. -/
def dbWB : Database := ⟨[⟨1, 5, 0⟩], [], [], [], [], [1], [], [1, 1], []⟩

/-- A store holding one v4 address row with value 5 and one entry for it
in each of the whitelist and the blacklist. -/
def dbBoth : Database := ⟨[⟨1, 5, 0⟩], [], [], [], [], [1], [], [1], []⟩

/-- C1: for every address, find_ip_list_type raises IntegrityViolationError
exactly when the whitelist count equals the blacklist count and is
positive, and returns None exactly when both counts are equal and zero. -/
theorem C1_classify_equal_counts (c : Conn) (ip : IPAddr) :
    ((find_ip_list_type c ip).1 = Except.error Err.integrityViolation ↔
      (runCountList c.db "whitelist" ip.version (get_ip_data ip).1 =
        runCountList c.db "blacklist" ip.version (get_ip_data ip).1 ∧
       0 < runCountList c.db "whitelist" ip.version (get_ip_data ip).1)) ∧
    ((find_ip_list_type c ip).1 = Except.ok none ↔
      (runCountList c.db "whitelist" ip.version (get_ip_data ip).1 =
        runCountList c.db "blacklist" ip.version (get_ip_data ip).1 ∧
       runCountList c.db "whitelist" ip.version (get_ip_data ip).1 = 0)) := by
  simp only [find_ip_list_type, exec_db, openCur_db, version_get_ip_data]
  split_ifs with h1 h2 <;> (simp_all; try omega)

/-- C2 fails on the code: with the whitelist count 1 and the blacklist
count 2 (counts nonzero and unequal, blacklist larger), find_ip_list_type
returns whitelist, not the list with the larger count. -/
theorem C2_counterexample_whitelist_wins :
    runCountList dbWB "whitelist" 4 (get_ip_data ⟨4, 5⟩).1 = 1 ∧
    runCountList dbWB "blacklist" 4 (get_ip_data ⟨4, 5⟩).1 = 2 ∧
    (find_ip_list_type ⟨dbWB, 0, []⟩ ⟨4, 5⟩).1 = Except.ok (some "whitelist") ∧
    (find_ip_list_type ⟨dbWB, 0, []⟩ ⟨4, 5⟩).1 ≠ Except.ok (some "blacklist") :=
  ⟨rfl, rfl, rfl, by decide⟩

/-- C2 amended: when the whitelist count and the blacklist count differ,
find_ip_list_type returns whitelist whenever the whitelist count is
nonzero and blacklist otherwise, regardless of which count is larger. -/
theorem C2_classify_differing_counts (c : Conn) (ip : IPAddr)
    (h : runCountList c.db "whitelist" ip.version (get_ip_data ip).1 ≠
      runCountList c.db "blacklist" ip.version (get_ip_data ip).1) :
    (find_ip_list_type c ip).1 = Except.ok (some
      (if 0 < runCountList c.db "whitelist" ip.version (get_ip_data ip).1
        then "whitelist" else "blacklist")) := by
  simp only [find_ip_list_type, exec_db, openCur_db, version_get_ip_data]
  rw [if_neg h]

theorem C2_classify_differing_counts_witness :
    (find_ip_list_type ⟨dbWB, 0, []⟩ ⟨4, 5⟩).1 = Except.ok (some "whitelist") :=
  C2_classify_differing_counts ⟨dbWB, 0, []⟩ ⟨4, 5⟩ (by decide)

/-- C3 fails on the code: with a start date after the end date,
get_sources_modified_in_range raises nothing, issues its statement with the
dates as given, and returns the (empty) rows. -/
theorem C3_counterexample_sources_no_validation :
    dtLt ⟨5, 0⟩ ⟨10, 0⟩ = true ∧
    (get_sources_modified_in_range ⟨emptyDb, 0, []⟩ ⟨10, 0⟩ ⟨5, 0⟩ none).2.executed =
      [Stmt.sourcesModified 10 5 none] ∧
    (get_sources_modified_in_range ⟨emptyDb, 0, []⟩ ⟨10, 0⟩ ⟨5, 0⟩ none).1 = [] :=
  ⟨rfl, rfl, rfl⟩

/-- C3 amended: get_ips_added_in_range fails with InvalidRangeError when
the start date exceeds the end date, before touching the connection;
get_sources_modified_in_range performs no such validation and issues its
statement with the dates as given. -/
theorem C3_date_window_validation (c : Conn) (sd ed : Datetime)
    (lim : Option (Nat × Nat)) (h : dtLt ed sd = true) :
    (get_ips_added_in_range c sd ed lim).1 = Except.error Err.invalidRange ∧
    (get_ips_added_in_range c sd ed lim).2 = c ∧
    (get_sources_modified_in_range c sd ed lim).2.executed =
      c.executed ++ [Stmt.sourcesModified sd.day ed.day lim] := by
  unfold get_ips_added_in_range get_sources_modified_in_range
  rw [if_pos h]
  exact ⟨rfl, rfl, rfl⟩

theorem C3_date_window_validation_witness :
    (get_ips_added_in_range ⟨emptyDb, 0, []⟩ ⟨10, 0⟩ ⟨5, 0⟩ none).1 =
      Except.error Err.invalidRange ∧
    (get_ips_added_in_range ⟨emptyDb, 0, []⟩ ⟨10, 0⟩ ⟨5, 0⟩ none).2 = ⟨emptyDb, 0, []⟩ ∧
    (get_sources_modified_in_range ⟨emptyDb, 0, []⟩ ⟨10, 0⟩ ⟨5, 0⟩ none).2.executed =
      [Stmt.sourcesModified 10 5 none] :=
  C3_date_window_validation ⟨emptyDb, 0, []⟩ ⟨10, 0⟩ ⟨5, 0⟩ none rfl

/-- C4 fails on the code (resource slip): find_ip_list_type returns None,
and raises on an address in both lists, with its cursor still open, and
get_ip_from_range raises on a version mismatch with its cursor still open;
the cursor.close() calls sit only on the remaining paths. -/
theorem C4_cursor_left_open :
    (find_ip_list_type ⟨emptyDb, 0, []⟩ ⟨4, 5⟩).1 = Except.ok none ∧
    (find_ip_list_type ⟨emptyDb, 0, []⟩ ⟨4, 5⟩).2.openCursors = 1 ∧
    (find_ip_list_type ⟨dbBoth, 0, []⟩ ⟨4, 5⟩).1 = Except.error Err.integrityViolation ∧
    (find_ip_list_type ⟨dbBoth, 0, []⟩ ⟨4, 5⟩).2.openCursors = 1 ∧
    (get_ip_from_range ⟨emptyDb, 0, []⟩ ⟨4, 1⟩ ⟨6, 1⟩ none).1 =
      Except.error Err.versionMismatch ∧
    (get_ip_from_range ⟨emptyDb, 0, []⟩ ⟨4, 1⟩ ⟨6, 1⟩ none).2.openCursors = 1 :=
  ⟨rfl, rfl, rfl, rfl, rfl, rfl⟩

/-- C5: for every pair of valid address literals whose decoded versions
differ, get_ip_from_range raises VersionMismatchError and executes no
statement against the connection. -/
theorem C5_version_mismatch_no_statement (c : Conn) (a b : IPAddr)
    (lim : Option (Nat × Nat)) (_ha : ValidIP a) (_hb : ValidIP b)
    (h : a.version ≠ b.version) :
    (get_ip_from_range c a b lim).1 = Except.error Err.versionMismatch ∧
    (get_ip_from_range c a b lim).2.executed = c.executed := by
  have h2 : (get_ip_data a).2 ≠ (get_ip_data b).2 := h
  simp only [get_ip_from_range]
  rw [if_pos h2]
  exact ⟨rfl, rfl⟩

theorem C5_version_mismatch_no_statement_witness :
    (get_ip_from_range ⟨emptyDb, 0, []⟩ ⟨4, 1⟩ ⟨6, 2⟩ none).1 =
      Except.error Err.versionMismatch ∧
    (get_ip_from_range ⟨emptyDb, 0, []⟩ ⟨4, 1⟩ ⟨6, 2⟩ none).2.executed = [] :=
  C5_version_mismatch_no_statement ⟨emptyDb, 0, []⟩ ⟨4, 1⟩ ⟨6, 2⟩ none
    (by decide) (by decide) (by decide)

/-- C6: for every pair of valid same-version endpoints, the range statement
is issued with the start and end values in the order given (no swap), and
when the start value exceeds the end value the call succeeds with an empty
result instead of swapping or rejecting. -/
theorem C6_range_in_given_order (c : Conn) (a b : IPAddr)
    (lim : Option (Nat × Nat)) (_ha : ValidIP a) (_hb : ValidIP b)
    (hv : a.version = b.version) :
    (get_ip_from_range c a b lim).2.executed =
      c.executed ++ [Stmt.byRange a.version (get_ip_data a).1 (get_ip_data b).1 lim] ∧
    (b.value < a.value → (get_ip_from_range c a b lim).1 = Except.ok []) := by
  have hv2 : ¬ ((get_ip_data a).2 ≠ (get_ip_data b).2) := fun hne => hne hv
  simp only [get_ip_from_range]
  rw [if_neg hv2]
  refine ⟨rfl, fun hlt => ?_⟩
  have hfil : ∀ l : List Row, l.filter (fun r =>
      decide ((get_ip_data a).1.asNum ≤ r.address ∧ r.address ≤ (get_ip_data b).1.asNum)) = [] := by
    intro l
    rw [List.filter_eq_nil_iff]
    intro r hr
    simp only [decide_eq_true_eq, asNum_get_ip_data, not_and, not_le]
    omega
  simp only [exec_db, openCur_db, runByRange, hfil, applyLimit_nil]

theorem C6_range_in_given_order_witness :
    (get_ip_from_range ⟨dbWB, 0, []⟩ ⟨4, 9⟩ ⟨4, 3⟩ none).2.executed =
      [Stmt.byRange 4 (PyVal.int 9) (PyVal.int 3) none] ∧
    (get_ip_from_range ⟨dbWB, 0, []⟩ ⟨4, 9⟩ ⟨4, 3⟩ none).1 = Except.ok [] :=
  ⟨(C6_range_in_given_order ⟨dbWB, 0, []⟩ ⟨4, 9⟩ ⟨4, 3⟩ none
      (by decide) (by decide) rfl).1,
   (C6_range_in_given_order ⟨dbWB, 0, []⟩ ⟨4, 9⟩ ⟨4, 3⟩ none
      (by decide) (by decide) rfl).2 (by decide)⟩

theorem get_ip_with_source_name_spec (c : Conn) (name : String)
    (lim : Option (Nat × Nat)) :
    (get_ip_with_source_name c name lim).2.executed =
      c.executed ++ [Stmt.bySource 4 name lim, Stmt.bySource 6 name lim] ∧
    (get_ip_with_source_name c name lim).1 =
      runBySource c.db 4 name lim ++ runBySource c.db 6 name lim := by
  refine ⟨?_, ?_⟩ <;> simp [get_ip_with_source_name, exec, openCur, closeCur]

theorem get_ips_added_in_range_spec (c : Conn) (sd ed : Datetime)
    (lim : Option (Nat × Nat)) (h : dtLt ed sd = false) :
    (get_ips_added_in_range c sd ed lim).2.executed =
      c.executed ++ [Stmt.byDateAdded 4 sd.day ed.day lim, Stmt.byDateAdded 6 sd.day ed.day lim] ∧
    (get_ips_added_in_range c sd ed lim).1 =
      Except.ok (runByDate c.db 4 sd.day ed.day lim ++ runByDate c.db 6 sd.day ed.day lim) := by
  refine ⟨?_, ?_⟩ <;> simp [get_ips_added_in_range, h, exec, openCur, closeCur]

/-- C7: both multi-statement operations issue the version-4 statement
before the version-6 statement and return the version-4 rows followed by
the version-6 rows, with no re-sorting. -/
theorem C7_v4_before_v6_concat (c : Conn) (name : String)
    (lim : Option (Nat × Nat)) (sd ed : Datetime) (h : dtLt ed sd = false) :
    (get_ip_with_source_name c name lim).2.executed =
      c.executed ++ [Stmt.bySource 4 name lim, Stmt.bySource 6 name lim] ∧
    (get_ip_with_source_name c name lim).1 =
      runBySource c.db 4 name lim ++ runBySource c.db 6 name lim ∧
    (get_ips_added_in_range c sd ed lim).2.executed =
      c.executed ++ [Stmt.byDateAdded 4 sd.day ed.day lim, Stmt.byDateAdded 6 sd.day ed.day lim] ∧
    (get_ips_added_in_range c sd ed lim).1 =
      Except.ok (runByDate c.db 4 sd.day ed.day lim ++ runByDate c.db 6 sd.day ed.day lim) := by
  obtain ⟨h1, h2⟩ := get_ip_with_source_name_spec c name lim
  obtain ⟨h3, h4⟩ := get_ips_added_in_range_spec c sd ed lim h
  exact ⟨h1, h2, h3, h4⟩

theorem C7_v4_before_v6_concat_witness :
    (get_ip_with_source_name ⟨emptyDb, 0, []⟩ "X" none).2.executed =
      [Stmt.bySource 4 "X" none, Stmt.bySource 6 "X" none] ∧
    (get_ip_with_source_name ⟨emptyDb, 0, []⟩ "X" none).1 = [] ∧
    (get_ips_added_in_range ⟨emptyDb, 0, []⟩ ⟨1, 0⟩ ⟨2, 0⟩ none).2.executed =
      [Stmt.byDateAdded 4 1 2 none, Stmt.byDateAdded 6 1 2 none] ∧
    (get_ips_added_in_range ⟨emptyDb, 0, []⟩ ⟨1, 0⟩ ⟨2, 0⟩ none).1 = Except.ok [] :=
  C7_v4_before_v6_concat ⟨emptyDb, 0, []⟩ "X" none ⟨1, 0⟩ ⟨2, 0⟩ rfl

/-- C8: with a page spec, every statement of the operation carries the same
limit/offset clause, and each version-scoped block is independently capped
at count rows (never a combined cap). -/
theorem C8_limit_per_statement (c : Conn) (name : String) (off cnt : Nat)
    (sd ed : Datetime) (h : dtLt ed sd = false) :
    (get_ip_with_source_name c name (some (off, cnt))).2.executed =
      c.executed ++ [Stmt.bySource 4 name (some (off, cnt)),
        Stmt.bySource 6 name (some (off, cnt))] ∧
    (get_ip_with_source_name c name (some (off, cnt))).1 =
      runBySource c.db 4 name (some (off, cnt)) ++ runBySource c.db 6 name (some (off, cnt)) ∧
    (runBySource c.db 4 name (some (off, cnt))).length ≤ cnt ∧
    (runBySource c.db 6 name (some (off, cnt))).length ≤ cnt ∧
    (get_ips_added_in_range c sd ed (some (off, cnt))).2.executed =
      c.executed ++ [Stmt.byDateAdded 4 sd.day ed.day (some (off, cnt)),
        Stmt.byDateAdded 6 sd.day ed.day (some (off, cnt))] ∧
    (runByDate c.db 4 sd.day ed.day (some (off, cnt))).length ≤ cnt ∧
    (runByDate c.db 6 sd.day ed.day (some (off, cnt))).length ≤ cnt := by
  obtain ⟨h1, h2⟩ := get_ip_with_source_name_spec c name (some (off, cnt))
  obtain ⟨h3, _⟩ := get_ips_added_in_range_spec c sd ed (some (off, cnt)) h
  exact ⟨h1, h2, applyLimit_length_le off cnt _, applyLimit_length_le off cnt _,
    h3, applyLimit_length_le off cnt _, applyLimit_length_le off cnt _⟩

theorem C8_limit_per_statement_witness :
    (get_ip_with_source_name ⟨dbWB, 0, []⟩ "X" (some (0, 10))).2.executed =
      [Stmt.bySource 4 "X" (some (0, 10)), Stmt.bySource 6 "X" (some (0, 10))] ∧
    (get_ip_with_source_name ⟨dbWB, 0, []⟩ "X" (some (0, 10))).1 =
      runBySource dbWB 4 "X" (some (0, 10)) ++ runBySource dbWB 6 "X" (some (0, 10)) ∧
    (runBySource dbWB 4 "X" (some (0, 10))).length ≤ 10 ∧
    (runBySource dbWB 6 "X" (some (0, 10))).length ≤ 10 ∧
    (get_ips_added_in_range ⟨dbWB, 0, []⟩ ⟨1, 0⟩ ⟨2, 0⟩ (some (0, 10))).2.executed =
      [Stmt.byDateAdded 4 1 2 (some (0, 10)), Stmt.byDateAdded 6 1 2 (some (0, 10))] ∧
    (runByDate dbWB 4 1 2 (some (0, 10))).length ≤ 10 ∧
    (runByDate dbWB 6 1 2 (some (0, 10))).length ≤ 10 :=
  C8_limit_per_statement ⟨dbWB, 0, []⟩ "X" 0 10 ⟨1, 0⟩ ⟨2, 0⟩ rfl

theorem between_self_eq (v a : Nat) : decide (v ≤ a ∧ a ≤ v) = (a == v) := by
  rw [Bool.eq_iff_iff]
  simp only [decide_eq_true_eq, beq_iff_eq]
  omega

theorem truthy_length (l : List α) : (if l.length = 0 then false else true) = true ↔ l ≠ [] := by
  cases l <;> simp

/-- C9: check_if_ip_in_database returns true exactly when the count of
matching rows is positive, which holds exactly when get_ip_from_range over
the same store with both endpoints at the address returns a non-empty
sequence. -/
theorem C9_contains_iff_range_nonempty (c : Conn) (ip : IPAddr) (_h : ValidIP ip) :
    ((check_if_ip_in_database c ip).1 = true ↔
      0 < runCountAddr c.db ip.version (get_ip_data ip).1) ∧
    (get_ip_from_range c ip ip none).1 =
      Except.ok (runByRange c.db ip.version (get_ip_data ip).1 (get_ip_data ip).1 none) ∧
    ((check_if_ip_in_database c ip).1 = true ↔
      runByRange c.db ip.version (get_ip_data ip).1 (get_ip_data ip).1 none ≠ []) := by
  have hcheck : (check_if_ip_in_database c ip).1 =
      (if runCountAddr c.db ip.version (get_ip_data ip).1 = 0 then false else true) := rfl
  have hfe : (tableFor c.db ip.version).filter (fun r =>
        decide ((get_ip_data ip).1.asNum ≤ r.address ∧
          r.address ≤ (get_ip_data ip).1.asNum)) =
      (tableFor c.db ip.version).filter (fun r => r.address == (get_ip_data ip).1.asNum) :=
    List.filter_congr (fun r _ => between_self_eq _ r.address)
  have hv2 : ¬ ((get_ip_data ip).2 ≠ (get_ip_data ip).2) := fun hne => hne rfl
  have hrange : (get_ip_from_range c ip ip none).1 =
      Except.ok (runByRange c.db ip.version (get_ip_data ip).1 (get_ip_data ip).1 none) := by
    simp only [get_ip_from_range]
    rw [if_neg hv2]
    exact rfl
  refine ⟨?_, hrange, ?_⟩
  · rw [hcheck]
    by_cases h0 : runCountAddr c.db ip.version (get_ip_data ip).1 = 0
    · simp [h0]
    · simp only [h0, if_false]
      simp only [true_iff]
      omega
  · rw [hcheck]
    simp only [runCountAddr, runByRange, applyLimit, hfe]
    exact truthy_length _

theorem C9_contains_iff_range_nonempty_witness :
    ((check_if_ip_in_database ⟨dbWB, 0, []⟩ ⟨4, 5⟩).1 = true ↔
      0 < runCountAddr dbWB 4 (get_ip_data ⟨4, 5⟩).1) ∧
    (get_ip_from_range ⟨dbWB, 0, []⟩ ⟨4, 5⟩ ⟨4, 5⟩ none).1 =
      Except.ok (runByRange dbWB 4 (get_ip_data ⟨4, 5⟩).1 (get_ip_data ⟨4, 5⟩).1 none) ∧
    ((check_if_ip_in_database ⟨dbWB, 0, []⟩ ⟨4, 5⟩).1 = true ↔
      runByRange dbWB 4 (get_ip_data ⟨4, 5⟩).1 (get_ip_data ⟨4, 5⟩).1 none ≠ []) :=
  C9_contains_iff_range_nonempty ⟨dbWB, 0, []⟩ ⟨4, 5⟩ (by decide)

/-- C10: for a valid IPv6 literal, get_ip_data returns version 6 with the
textual bin rendering of the value, a string starting with 0b, while for a
valid IPv4 literal it returns version 4 with the unsigned integer value. -/
theorem C10_decoded_value_shape (ip : IPAddr) (_h : ValidIP ip) :
    (ip.version = 6 →
      get_ip_data ip = (PyVal.str (pyBin ip.value), 6) ∧
      ∃ t : String, pyBin ip.value = "0b" ++ t) ∧
    (ip.version = 4 → get_ip_data ip = (PyVal.int ip.value, 4)) := by
  constructor
  · intro h6
    refine ⟨by simp [get_ip_data, h6], ?_⟩
    exact ⟨String.mk (if ip.value = 0 then ['0'] else binDigitsCore ip.value ip.value []), rfl⟩
  · intro h4
    simp [get_ip_data, h4]

theorem C10_decoded_value_shape_witness :
    (get_ip_data ⟨6, 5⟩ = (PyVal.str (pyBin 5), 6) ∧
      ∃ t : String, pyBin 5 = "0b" ++ t) ∧
    (get_ip_data ⟨4, 5⟩ = (PyVal.int 5, 4)) ∧
    pyBin 5 = "0b101" :=
  ⟨(C10_decoded_value_shape ⟨6, 5⟩ (by decide)).1 rfl,
   (C10_decoded_value_shape ⟨4, 5⟩ (by decide)).2 rfl, rfl⟩

end Dbapi
